import Mathlib

/-!
Verification development for the PPai-Backend repository: two Netlify
function handlers (aiCommand, youtubeSearch) and the shared license
utilities (validateLicense, extractToken).

The JavaScript/TypeScript sources are embedded shallowly:
  * machine strings are Lean `String`s; JavaScript `split`, `trim` and
    truthiness are translated explicitly;
  * `process.env` becomes an explicit `Env` record;
  * `JSON.parse` is modelled by an executable parser `jsonParse` over the
    JSON value type `Json` (numbers are kept as their integer part, which
    no property here depends on);
  * JavaScript property access on a parsed value, which throws a TypeError
    on `null`, is `Json.access` returning `Except Unit (Option Json)`;
  * the upstream network calls (fetch to the YouTube API, the Gemini
    client) are parameters of the handlers: `FetchOutcome` for the single
    YouTube fetch and a function `String → GenOutcome` for Gemini, so the
    exact prompt string sent upstream is observable;
  * each handler returns its `Response` together with a flag recording
    whether the upstream call was made; the try/catch at the handler
    boundary is an `Except` whose error payload carries that flag.
-/

/-- JSON values, as produced by a JavaScript JSON.parse. Numbers are
modelled by their integer part; no claim in this development inspects a
numeric payload. -/
inductive Json where
  | null : Json
  | bool : Bool → Json
  | num : Int → Json
  | str : String → Json
  | arr : List Json → Json
  | obj : List (String × Json) → Json
deriving Repr

/-- JavaScript truthiness of a JSON value. -/
def Json.truthy : Json → Bool
  | .null => false
  | .bool b => b
  | .num n => n != 0
  | .str s => s != ""
  | .arr _ => true
  | .obj _ => true

/-- Whether a JSON value is a string (typeof x === "string"). -/
def Json.isStr : Json → Bool
  | .str _ => true
  | _ => false

/-- The underlying string of a JSON string, or "" otherwise. -/
def Json.strVal : Json → String
  | .str s => s
  | _ => ""

/-- Last-wins lookup of a key in an object field list, matching the way
a JavaScript object built from repeated keys keeps the final one. -/
def lookupField (fs : List (String × Json)) (key : String) : Option Json :=
  fs.foldl (fun acc kv => if kv.fst = key then some kv.snd else acc) none

/-- JavaScript property access on a parsed JSON value: accessing a
property of `null` throws a TypeError (`Except.error`), an object yields
the field or `undefined` (`none`), and any primitive or array yields
`undefined` for the field names used by this code. -/
def Json.access : Json → String → Except Unit (Option Json)
  | .null, _ => .error ()
  | .obj fs, key => .ok (lookupField fs key)
  | _, _ => .ok none

/-- The double-quote character. -/
def quoteC : Char := Char.ofNat 34

/-- The backslash character. -/
def backslashC : Char := Char.ofNat 92

/-- Drop leading JSON whitespace (space, tab, LF, CR). -/
def skipWsChars : List Char → List Char
  | [] => []
  | c :: cs => if c.isWhitespace then skipWsChars cs else c :: cs

/-- Value of a hexadecimal digit, if any. -/
def hexVal (c : Char) : Option Nat :=
  if c.isDigit then some (c.toNat - 48)
  else if 97 ≤ c.toNat ∧ c.toNat ≤ 102 then some (c.toNat - 87)
  else if 65 ≤ c.toNat ∧ c.toNat ≤ 70 then some (c.toNat - 55)
  else none

/-- Scan the body of a JSON string literal (the opening quote already
consumed), handling the standard escapes; returns the decoded string and
the remaining input. -/
def parseStrChars : List Char → List Char → Option (String × List Char)
  | _, [] => none
  | acc, c :: rest =>
    if c = quoteC then some (String.mk acc.reverse, rest)
    else if c = backslashC then
      match rest with
      | [] => none
      | e :: rest2 =>
        if e = quoteC then parseStrChars (quoteC :: acc) rest2
        else if e = backslashC then parseStrChars (backslashC :: acc) rest2
        else if e = '/' then parseStrChars ('/' :: acc) rest2
        else if e = 'n' then parseStrChars ('\n' :: acc) rest2
        else if e = 't' then parseStrChars ('\t' :: acc) rest2
        else if e = 'r' then parseStrChars ('\r' :: acc) rest2
        else if e = 'b' then parseStrChars (Char.ofNat 8 :: acc) rest2
        else if e = 'f' then parseStrChars (Char.ofNat 12 :: acc) rest2
        else if e = 'u' then
          match rest2 with
          | a :: b :: c2 :: d :: rest3 =>
            match hexVal a, hexVal b, hexVal c2, hexVal d with
            | some va, some vb, some vc, some vd =>
              parseStrChars
                (Char.ofNat (((va * 16 + vb) * 16 + vc) * 16 + vd) :: acc) rest3
            | _, _, _, _ => none
          | _ => none
        else none
    else parseStrChars (c :: acc) rest

/-- Numeric value of a digit list. -/
def digitsToNat (ds : List Char) : Nat :=
  ds.foldl (fun acc c => acc * 10 + (c.toNat - 48)) 0

/-- Parse the optional fraction part of a JSON number, discarding its
digits (values are kept to their integer part). -/
def parseFrac (cs : List Char) : Option (List Char) :=
  match cs with
  | c :: rest =>
    if c = '.' then
      let p := rest.span Char.isDigit
      if p.fst.isEmpty then none else some p.snd
    else some cs
  | [] => some []

/-- Parse the optional exponent part of a JSON number, discarding it. -/
def parseExp (cs : List Char) : Option (List Char) :=
  match cs with
  | c :: rest =>
    if c = 'e' ∨ c = 'E' then
      let rest2 := match rest with
        | d :: r2 => if d = '+' ∨ d = '-' then r2 else rest
        | [] => rest
      let p := rest2.span Char.isDigit
      if p.fst.isEmpty then none else some p.snd
    else some cs
  | [] => some []

/-- Parse a JSON number (kept to its integer part). -/
def parseNumber (cs : List Char) : Option (Json × List Char) :=
  let signSplit : Bool × List Char :=
    match cs with
    | c :: rest => if c = '-' then (true, rest) else (false, cs)
    | [] => (false, [])
  let p := signSplit.snd.span Char.isDigit
  if p.fst.isEmpty then none
  else do
    let afterFrac ← parseFrac p.snd
    let afterExp ← parseExp afterFrac
    let n : Int := Int.ofNat (digitsToNat p.fst)
    some (.num (if signSplit.fst then -n else n), afterExp)

mutual

/-- Fuel-indexed parser for a JSON value, leading whitespace allowed. -/
def parseValue : Nat → List Char → Option (Json × List Char)
  | 0, _ => none
  | f + 1, cs =>
    match skipWsChars cs with
    | 'n' :: 'u' :: 'l' :: 'l' :: rest => some (.null, rest)
    | 't' :: 'r' :: 'u' :: 'e' :: rest => some (.bool true, rest)
    | 'f' :: 'a' :: 'l' :: 's' :: 'e' :: rest => some (.bool false, rest)
    | c :: rest =>
      if c = quoteC then
        (parseStrChars [] rest).map (fun sr => (.str sr.fst, sr.snd))
      else if c = Char.ofNat 123 then parseObjBody f (skipWsChars rest)
      else if c = Char.ofNat 91 then parseArrBody f (skipWsChars rest)
      else if c = '-' ∨ c.isDigit then parseNumber (c :: rest)
      else none
    | [] => none

/-- Parse the inside of an object, the opening brace and following
whitespace already consumed. -/
def parseObjBody : Nat → List Char → Option (Json × List Char)
  | 0, _ => none
  | f + 1, cs =>
    match cs with
    | c :: rest =>
      if c = Char.ofNat 125 then some (.obj [], rest)
      else parseMembers f cs []
    | [] => none

/-- Parse one or more object members separated by commas, up to the
closing brace. -/
def parseMembers : Nat → List Char → List (String × Json) → Option (Json × List Char)
  | 0, _, _ => none
  | f + 1, cs, acc =>
    match cs with
    | c :: rest =>
      if c = quoteC then
        match parseStrChars [] rest with
        | some (key, r1) =>
          match skipWsChars r1 with
          | c2 :: r2 =>
            if c2 = ':' then
              match parseValue f r2 with
              | some (v, r3) =>
                match skipWsChars r3 with
                | c3 :: r4 =>
                  if c3 = ',' then parseMembers f (skipWsChars r4) ((key, v) :: acc)
                  else if c3 = Char.ofNat 125 then
                    some (.obj (((key, v) :: acc).reverse), r4)
                  else none
                | [] => none
              | none => none
            else none
          | [] => none
        | none => none
      else none
    | [] => none

/-- Parse the inside of an array, the opening bracket and following
whitespace already consumed. -/
def parseArrBody : Nat → List Char → Option (Json × List Char)
  | 0, _ => none
  | f + 1, cs =>
    match cs with
    | c :: rest =>
      if c = Char.ofNat 93 then some (.arr [], rest)
      else parseElems f cs []
    | [] => none

/-- Parse one or more array elements separated by commas, up to the
closing bracket. -/
def parseElems : Nat → List Char → List Json → Option (Json × List Char)
  | 0, _, _ => none
  | f + 1, cs, acc =>
    match parseValue f cs with
    | some (v, r1) =>
      match skipWsChars r1 with
      | c :: r2 =>
        if c = ',' then parseElems f r2 (v :: acc)
        else if c = Char.ofNat 93 then some (.arr ((v :: acc).reverse), r2)
        else none
      | [] => none
    | none => none

end

/-- Model of JavaScript JSON.parse: parse one value and require only
whitespace to remain. -/
def jsonParse (s : String) : Except Unit Json :=
  match parseValue (3 * s.length + 3) s.toList with
  | some (v, rest) => if (skipWsChars rest).isEmpty then .ok v else .error ()
  | none => .error ()

/-- Escape one character for a JSON string literal, following
JSON.stringify. -/
def escapeChar (c : Char) : List Char :=
  if c = quoteC then [backslashC, quoteC]
  else if c = backslashC then [backslashC, backslashC]
  else if c = '\n' then [backslashC, 'n']
  else if c = '\t' then [backslashC, 't']
  else if c = '\r' then [backslashC, 'r']
  else [c]

/-- Quote a string as JSON.stringify does. -/
def quoteStr (s : String) : String :=
  String.mk ([quoteC] ++ (s.toList.flatMap escapeChar) ++ [quoteC])

mutual

/-- Model of JavaScript JSON.stringify on a JSON value (compact form: no
space after separators). -/
def Json.stringify : Json → String
  | .null => "null"
  | .bool true => "true"
  | .bool false => "false"
  | .num n => toString n
  | .str s => quoteStr s
  | .arr xs => "[" ++ stringifyElems xs ++ "]"
  | .obj fs => "\x7b" ++ stringifyFields fs ++ "\x7d"

/-- Comma-separated serialization of array elements. -/
def stringifyElems : List Json → String
  | [] => ""
  | [x] => Json.stringify x
  | x :: y :: rest => Json.stringify x ++ "," ++ stringifyElems (y :: rest)

/-- Comma-separated serialization of object fields. -/
def stringifyFields : List (String × Json) → String
  | [] => ""
  | [kv] => quoteStr kv.fst ++ ":" ++ Json.stringify kv.snd
  | kv :: kv2 :: rest =>
    quoteStr kv.fst ++ ":" ++ Json.stringify kv.snd ++ "," ++ stringifyFields (kv2 :: rest)

end

/-! ## Environment and JavaScript helpers -/

/-- The process environment variables this backend reads
(process.env.*); `none` models an unset variable. -/
structure Env where
  LICENSE_TOKENS : Option String
  NODE_ENV : Option String
  GEMINI_API_KEY : Option String
  YOUTUBE_API_KEY : Option String
deriving Repr, DecidableEq

/-- JavaScript `a || b` on two possibly-undefined strings: the empty
string is falsy and falls through to `b`. -/
def jsOrOpt (a b : Option String) : Option String :=
  match a with
  | some s => if s = "" then b else some s
  | none => b

/-- JavaScript `a || b` where `b` is a string literal default. -/
def jsOrStr (a : Option String) (b : String) : String :=
  match a with
  | some s => if s = "" then b else s
  | none => b

/-- JavaScript truthiness of a possibly-undefined string (`!x` is the
negation): unset and empty are falsy. -/
def jsStrTruthy : Option String → Bool
  | some s => s != ""
  | none => false

/-- Split a character list on a separator character, keeping empty
groups, as JavaScript split does with a one-character separator. -/
def splitChars (sep : Char) : List Char → List (List Char)
  | [] => [[]]
  | c :: cs =>
    let r := splitChars sep cs
    if c = sep then [] :: r
    else
      match r with
      | g :: gs => (c :: g) :: gs
      | [] => [[c]]

/-- JavaScript `s.split(sep)` for a one-character separator: keeps empty
parts, and the empty string yields `[""]`. -/
def jsSplit (s : String) (sep : Char) : List String :=
  (splitChars sep s.toList).map String.mk

/-- JavaScript `s.trim()` over the whitespace characters exercised here
(space, tab, LF, CR). -/
def jsTrim (s : String) : String :=
  String.mk
    (((s.toList.dropWhile Char.isWhitespace).reverse.dropWhile Char.isWhitespace).reverse)

/-! ## License utilities (src/netlify/functions/utils/license.js) -/

/-- Result record of validateLicense. -/
structure LicenseCheckResult where
  valid : Bool
  reason : Option String
deriving Repr, DecidableEq

/-- The whitelist parsed from LICENSE_TOKENS:
`process.env.LICENSE_TOKENS?.split(",").map(t => t.trim()) || []`. -/
def whitelistOf (env : Env) : List String :=
  match env.LICENSE_TOKENS with
  | some s => (jsSplit s (Char.ofNat 44)).map jsTrim
  | none => []

/-- validateLicense from license.js. The `!token` guard makes both a
missing token and the empty-string token fail with
"Missing authorization token"; with an empty whitelist in development
mode validation passes; otherwise membership in the trimmed whitelist
decides. -/
def validateLicense (env : Env) (token : Option String) : LicenseCheckResult :=
  match token with
  | none => ⟨false, some "Missing authorization token"⟩
  | some t =>
    if t = "" then ⟨false, some "Missing authorization token"⟩
    else
      let whitelist := whitelistOf env
      if whitelist.length = 0 ∧ env.NODE_ENV = some "development" then
        ⟨true, none⟩
      else if t ∈ whitelist then ⟨true, none⟩
      else ⟨false, some "Invalid license token"⟩

/-- extractToken from license.js: `null` unless the header splits on
single spaces into exactly two parts with first part "Bearer"; then the
second part. -/
def extractToken (authHeader : Option String) : Option String :=
  match authHeader with
  | none => none
  | some h =>
    if h = "" then none
    else
      match jsSplit h (Char.ofNat 32) with
      | [a, b] => if a = "Bearer" then some b else none
      | _ => none

/-! ## Upstream payload shapes (youtubeSearch.ts interfaces) -/

/-- One thumbnail entry of the YouTube API response. -/
structure ThumbInfo where
  url : Option String
deriving Repr, DecidableEq

/-- The three optional thumbnail resolutions of a snippet. -/
structure Thumbs where
  default : Option ThumbInfo
  medium : Option ThumbInfo
  high : Option ThumbInfo
deriving Repr, DecidableEq

/-- The snippet of a YouTube API item. -/
structure Snippet where
  title : Option String
  channelTitle : Option String
  thumbnails : Option Thumbs
deriving Repr, DecidableEq

/-- The id of a YouTube API item. -/
structure VideoId where
  videoId : Option String
deriving Repr, DecidableEq

/-- One item of the YouTube API response. -/
structure YTItem where
  id : Option VideoId
  snippet : Option Snippet
deriving Repr, DecidableEq

/-- The YouTube API response body (YouTubeApiResponse). -/
structure YouTubeApiResponse where
  items : Option (List YTItem)
deriving Repr, DecidableEq

/-- The simplified thumbnail set returned to the client. -/
structure ThumbSet where
  default : Option String
  medium : Option String
  high : Option String
deriving Repr, DecidableEq

/-- One result of the simplified search response (YouTubeSearchResult). -/
structure YTResult where
  title : String
  url : String
  channel : String
  thumbnails : ThumbSet
deriving Repr, DecidableEq

/-! ## HTTP model shared by both handlers -/

/-- The header fields the handlers read:
`event.headers.authorization` and `event.headers.Authorization`. -/
structure EventHeaders where
  authorization : Option String
  Authorization : Option String
deriving Repr

/-- A Netlify function event, restricted to what the handlers use. -/
structure Event where
  httpMethod : String
  headers : EventHeaders
  body : Option String
deriving Repr

/-- Body of a response. The source JSON-stringifies an object literal
into the body string; the constructors record which object. -/
inductive RespBody where
  | empty : RespBody
  | errObj : String → String → RespBody
  | aiResult : String → RespBody
  | searchResults : List YTResult → RespBody
deriving Repr, DecidableEq

/-- A handler response. -/
structure Response where
  statusCode : Nat
  headers : List (String × String)
  body : RespBody
deriving Repr, DecidableEq

/-- The fixed corsHeaders object both handlers attach. -/
def corsHeaders : List (String × String) :=
  [("Access-Control-Allow-Origin", "*"),
   ("Access-Control-Allow-Headers", "Content-Type, Authorization"),
   ("Access-Control-Allow-Methods", "POST, OPTIONS")]

/-- The 200 answer to an OPTIONS preflight: CORS headers, empty body. -/
def optionsResponse : Response := ⟨200, corsHeaders, .empty⟩

/-- The 405 answer to a non-POST method. -/
def methodNotAllowed : Response :=
  ⟨405, corsHeaders, .errObj "Method Not Allowed" "Only POST requests are allowed"⟩

/-- A 401 Unauthorized response. -/
def unauthorized (message : String) : Response :=
  ⟨401, corsHeaders, .errObj "Unauthorized" message⟩

/-- A 400 Bad Request response. -/
def badRequest (message : String) : Response :=
  ⟨400, corsHeaders, .errObj "Bad Request" message⟩

/-- A 500 Internal Server Error response. -/
def serverError (message : String) : Response :=
  ⟨500, corsHeaders, .errObj "Internal Server Error" message⟩

/-- A 200 success response; the source adds a Content-Type header to the
CORS headers by spreading. -/
def okJson (b : RespBody) : Response :=
  ⟨200, corsHeaders ++ [("Content-Type", "application/json")], b⟩

/-- The authorization header value both handlers read:
`event.headers.authorization || event.headers.Authorization`. -/
def eventAuth (ev : Event) : Option String :=
  jsOrOpt ev.headers.authorization ev.headers.Authorization

/-- The source text of an empty JSON object. -/
def emptyObjectText : String := "\x7b\x7d"

/-- The raw body the handlers parse: `event.body || "\x7b\x7d"`. -/
def eventBodyRaw (ev : Event) : String := jsOrStr ev.body emptyObjectText

/-- The shared required-field check
`!x || typeof x !== "string" || x.trim().length === 0`, applied to the
accessed field (`none` is JavaScript undefined). -/
def requiredFieldBad (v : Option Json) : Bool :=
  match v with
  | none => true
  | some j => !j.truthy || !j.isStr || jsTrim j.strVal = ""

/-! ## youtubeSearch handler (src/src/youtubeSearch.ts) -/

/-- Outcome of the single fetch to the YouTube API: the fetch (or a later
step such as response.json) throws, the response is not ok, or it is ok
with a parsed payload. -/
inductive FetchOutcome where
  | throws : FetchOutcome
  | notOk : Nat → String → FetchOutcome
  | ok : YouTubeApiResponse → FetchOutcome
deriving Repr

/-- The base of every result url. -/
def watchBase : String := "https://www.youtube.com/watch?v="

/-- The per-item transformation of the YouTube API response
(youtubeSearch.ts lines 155-164): optional chains become Option.bind,
`|| ""` becomes getD "". -/
def mapItem (item : YTItem) : YTResult :=
  ⟨(item.snippet.bind (fun s => s.title)).getD "",
   watchBase ++ ((item.id.bind (fun i2 => i2.videoId)).getD ""),
   (item.snippet.bind (fun s => s.channelTitle)).getD "",
   ⟨((item.snippet.bind (fun s => s.thumbnails)).bind (fun t => t.default)).bind (fun u => u.url),
    ((item.snippet.bind (fun s => s.thumbnails)).bind (fun t => t.medium)).bind (fun u => u.url),
    ((item.snippet.bind (fun s => s.thumbnails)).bind (fun t => t.high)).bind (fun u => u.url)⟩⟩

/-- The try block of the youtubeSearch handler. The Bool paired with the
response (and carried by a thrown error) records whether the upstream
fetch was made. -/
def youtubeTry (env : Env) (ev : Event) (upstream : FetchOutcome) :
    Except Bool (Response × Bool) :=
  let token := extractToken (eventAuth ev)
  let licenseCheck := validateLicense env token
  if !licenseCheck.valid then
    .ok (unauthorized (licenseCheck.reason.getD "Invalid license"), false)
  else
    match jsonParse (eventBodyRaw ev) with
    | .error _ => .ok (badRequest "Invalid JSON in request body", false)
    | .ok bodyJson =>
      match Json.access bodyJson "query" with
      | .error _ => .error false
      | .ok qv =>
        if requiredFieldBad qv then
          .ok (badRequest "Missing or invalid \"query\" field", false)
        else if !jsStrTruthy env.YOUTUBE_API_KEY then
          .ok (serverError "Server configuration error", false)
        else
          match upstream with
          | .throws => .error true
          | .notOk _ _ => .ok (serverError "Failed to search YouTube", true)
          | .ok data =>
            .ok (okJson (.searchResults ((data.items.getD []).map mapItem)), true)

/-- The youtubeSearch handler: OPTIONS and method gates outside the try
block, then the try block with its catch-all 500. -/
def youtubeSearch (env : Env) (ev : Event) (upstream : FetchOutcome) :
    Response × Bool :=
  if ev.httpMethod = "OPTIONS" then (optionsResponse, false)
  else if ev.httpMethod ≠ "POST" then (methodNotAllowed, false)
  else
    match youtubeTry env ev upstream with
    | .ok r => r
    | .error called => (serverError "An error occurred processing your request", called)

/-! ## aiCommand handler (src/aiCommand.ts) -/

/-- Outcome of the Gemini generateContent call for a given prompt. -/
inductive GenOutcome where
  | throws : GenOutcome
  | ok : String → GenOutcome
deriving Repr

/-- The try block of the aiCommand handler. The optional string paired
with the response (and carried by a thrown error) is the prompt sent
upstream, if the call was made. -/
def aiTry (env : Env) (ev : Event) (upstream : String → GenOutcome) :
    Except (Option String) (Response × Option String) :=
  let token := extractToken (eventAuth ev)
  let licenseCheck := validateLicense env token
  if !licenseCheck.valid then
    .ok (unauthorized (licenseCheck.reason.getD "Invalid license"), none)
  else
    match jsonParse (eventBodyRaw ev) with
    | .error _ => .ok (badRequest "Invalid JSON in request body", none)
    | .ok bodyJson =>
      match Json.access bodyJson "prompt" with
      | .error _ => .error none
      | .ok pv =>
        if requiredFieldBad pv then
          .ok (badRequest "Missing or invalid \"prompt\" field", none)
        else if !jsStrTruthy env.GEMINI_API_KEY then
          .ok (serverError "Server configuration error", none)
        else
          match Json.access bodyJson "context" with
          | .error _ => .error none
          | .ok cv =>
            let promptStr := (pv.getD .null).strVal
            let fullPrompt :=
              match cv with
              | some c =>
                if c.truthy then
                  "Context: " ++ c.stringify ++ "\n\nUser Request: " ++ promptStr
                else promptStr
              | none => promptStr
            match upstream fullPrompt with
            | .throws => .error (some fullPrompt)
            | .ok text => .ok (okJson (.aiResult text), some fullPrompt)

/-- The aiCommand handler: OPTIONS and method gates outside the try
block, then the try block with its catch-all 500. -/
def aiCommand (env : Env) (ev : Event) (upstream : String → GenOutcome) :
    Response × Option String :=
  if ev.httpMethod = "OPTIONS" then (optionsResponse, none)
  else if ev.httpMethod ≠ "POST" then (methodNotAllowed, none)
  else
    match aiTry env ev upstream with
    | .ok r => r
    | .error called => (serverError "An error occurred processing your request", called)

/-! ## Helper lemmas -/

/-- Splitting never yields an empty list of groups. -/
lemma splitChars_ne_nil (sep : Char) (cs : List Char) : splitChars sep cs ≠ [] := by
  induction cs with
  | nil => simp [splitChars]
  | cons c cs ih =>
    simp only [splitChars]
    split
    · simp
    · cases hr : splitChars sep cs with
      | nil => exact absurd hr ih
      | cons g gs => simp [hr]

/-- The parsed whitelist is empty exactly when LICENSE_TOKENS is unset. -/
lemma whitelistOf_eq_nil_iff (env : Env) : whitelistOf env = [] ↔ env.LICENSE_TOKENS = none := by
  cases h : env.LICENSE_TOKENS with
  | none => simp [whitelistOf, h]
  | some s =>
    simp only [whitelistOf, h]
    constructor
    · intro hmap
      exact absurd (List.map_eq_nil_iff.mp hmap) (splitChars_ne_nil (Char.ofNat 44) s.toList
        |> fun hne => by simpa [jsSplit] using hne)
    · intro hcon; cases hcon

/-- Every normal result of the youtubeSearch try block has CORS-prefixed
headers, and a 401 status arises only when the license check failed. -/
lemma youtubeTry_shape (env : Env) (ev : Event) (uy : FetchOutcome) :
    (∃ b, youtubeTry env ev uy = .error b) ∨
    (∃ r b, youtubeTry env ev uy = .ok (r, b) ∧
      (r.headers = corsHeaders ∨
        r.headers = corsHeaders ++ [("Content-Type", "application/json")]) ∧
      ((validateLicense env (extractToken (eventAuth ev))).valid = true →
        r.statusCode ≠ 401)) := by
  unfold youtubeTry
  dsimp only
  split
  next hval =>
    right
    exact ⟨_, _, rfl, Or.inl rfl, fun hv => by simp [hv] at hval⟩
  next hval =>
    split
    next => right; exact ⟨_, _, rfl, Or.inl rfl, fun _ => by decide⟩
    next bodyJson hp =>
      split
      next => left; exact ⟨_, rfl⟩
      next qv hq =>
        split
        · right; exact ⟨_, _, rfl, Or.inl rfl, fun _ => by decide⟩
        · split
          · right; exact ⟨_, _, rfl, Or.inl rfl, fun _ => by decide⟩
          · split
            · left; exact ⟨_, rfl⟩
            · right; exact ⟨_, _, rfl, Or.inl rfl, fun _ => by decide⟩
            · right; exact ⟨_, _, rfl, Or.inr rfl, fun _ => by simp [okJson]⟩

/-- Every normal result of the aiCommand try block has CORS-prefixed
headers, and a 401 status arises only when the license check failed. -/
lemma aiTry_shape (env : Env) (ev : Event) (ua : String → GenOutcome) :
    (∃ c, aiTry env ev ua = .error c) ∨
    (∃ r c, aiTry env ev ua = .ok (r, c) ∧
      (r.headers = corsHeaders ∨
        r.headers = corsHeaders ++ [("Content-Type", "application/json")]) ∧
      ((validateLicense env (extractToken (eventAuth ev))).valid = true →
        r.statusCode ≠ 401)) := by
  unfold aiTry
  dsimp only
  split
  next hval =>
    right
    exact ⟨_, _, rfl, Or.inl rfl, fun hv => by simp [hv] at hval⟩
  next hval =>
    split
    next => right; exact ⟨_, _, rfl, Or.inl rfl, fun _ => by decide⟩
    next bodyJson hp =>
      split
      next => left; exact ⟨_, rfl⟩
      next pv hq =>
        split
        · right; exact ⟨_, _, rfl, Or.inl rfl, fun _ => by decide⟩
        · split
          · right; exact ⟨_, _, rfl, Or.inl rfl, fun _ => by decide⟩
          · split
            next => left; exact ⟨_, rfl⟩
            next cv hc =>
              split
              · left; exact ⟨_, rfl⟩
              · right; exact ⟨_, _, rfl, Or.inr rfl, fun _ => by simp [okJson]⟩

/-- Headers and 401-freedom facts lifted to the full youtubeSearch
handler. -/
lemma youtubeSearch_facts (env : Env) (ev : Event) (uy : FetchOutcome) :
    ((youtubeSearch env ev uy).fst.headers = corsHeaders ∨
      (youtubeSearch env ev uy).fst.headers =
        corsHeaders ++ [("Content-Type", "application/json")]) ∧
    ((validateLicense env (extractToken (eventAuth ev))).valid = true →
      (youtubeSearch env ev uy).fst.statusCode ≠ 401) := by
  unfold youtubeSearch
  split
  · exact ⟨Or.inl rfl, fun _ => by decide⟩
  · split
    · exact ⟨Or.inl rfl, fun _ => by decide⟩
    · rcases youtubeTry_shape env ev uy with ⟨b, heq⟩ | ⟨r, b, heq, hh, h401⟩
      · rw [heq]; exact ⟨Or.inl rfl, fun _ => by simp [serverError]⟩
      · rw [heq]; exact ⟨hh, h401⟩

/-- Headers and 401-freedom facts lifted to the full aiCommand
handler. -/
lemma aiCommand_facts (env : Env) (ev : Event) (ua : String → GenOutcome) :
    ((aiCommand env ev ua).fst.headers = corsHeaders ∨
      (aiCommand env ev ua).fst.headers =
        corsHeaders ++ [("Content-Type", "application/json")]) ∧
    ((validateLicense env (extractToken (eventAuth ev))).valid = true →
      (aiCommand env ev ua).fst.statusCode ≠ 401) := by
  unfold aiCommand
  split
  · exact ⟨Or.inl rfl, fun _ => by decide⟩
  · split
    · exact ⟨Or.inl rfl, fun _ => by decide⟩
    · rcases aiTry_shape env ev ua with ⟨c, heq⟩ | ⟨r, c, heq, hh, h401⟩
      · rw [heq]; exact ⟨Or.inl rfl, fun _ => by simp [serverError]⟩
      · rw [heq]; exact ⟨hh, h401⟩

/-! ## Claim theorems -/

/-- C1 counterexample. The claim asserts that with an empty whitelist in
development mode every token, including the no-token case, yields
valid = true; but with LICENSE_TOKENS unset and NODE_ENV set to
development, validateLicense on a missing token returns valid = false
(reason "Missing authorization token"), because the missing-token guard
runs before the development bypass. -/
theorem c1_counterexample :
    validateLicense ⟨none, some "development", none, none⟩ none =
      ⟨false, some "Missing authorization token"⟩ := by rfl

/-- C1 amended: with an empty parsed whitelist and NODE_ENV set to
development, validateLicense returns valid = true for every present
(non-empty) token; the no-token and empty-token cases instead fail with
"Missing authorization token". -/
theorem c1_amended_dev_bypass (env : Env) (t : String)
    (hw : whitelistOf env = []) (hdev : env.NODE_ENV = some "development")
    (ht : t ≠ "") :
    validateLicense env (some t) = ⟨true, none⟩ ∧
    validateLicense env none = ⟨false, some "Missing authorization token"⟩ := by
  refine ⟨?_, rfl⟩
  simp [validateLicense, ht, hw, hdev]

/-- Witness for the amended C1 at a concrete environment and token. -/
theorem c1_amended_dev_bypass_witness :
    validateLicense ⟨none, some "development", none, none⟩ (some "anything") =
      ⟨true, none⟩ :=
  (c1_amended_dev_bypass ⟨none, some "development", none, none⟩ "anything"
    rfl rfl (by decide)).1

/-- C3: extractToken yields a token exactly when splitting the header on
single spaces gives exactly two parts with the first equal to "Bearer",
in which case the token is the second part; every other shape yields
none. -/
theorem c3_extract_token_shape (h : Option String) (t : String) :
    extractToken h = some t ↔
      ∃ s, h = some s ∧ jsSplit s (Char.ofNat 32) = ["Bearer", t] := by
  cases h with
  | none => simp [extractToken]
  | some s =>
    by_cases hs : s = ""
    · subst hs
      simp only [extractToken, if_pos rfl]
      constructor
      · intro hcon; cases hcon
      · rintro ⟨s2, hs2, hsplit⟩
        cases hs2
        have hempty : jsSplit "" (Char.ofNat 32) = [""] := rfl
        rw [hempty] at hsplit
        simp at hsplit
    · simp only [extractToken, if_neg hs]
      rcases hsp : jsSplit s (Char.ofNat 32) with _ | ⟨a, _ | ⟨b, _ | ⟨c, rest⟩⟩⟩
      · simp [hsp]
      · simp [hsp]
      · by_cases ha : a = "Bearer" <;> simp [hsp, ha]
      · simp [hsp]

/-- Witness for C3 at a concrete well-formed header. -/
theorem c3_extract_token_shape_witness :
    extractToken (some "Bearer tok123") = some "tok123" :=
  (c3_extract_token_shape (some "Bearer tok123") "tok123").mpr
    ⟨"Bearer tok123", rfl, by rfl⟩

/-- C9: setting LICENSE_TOKENS to the empty string parses to the
one-element whitelist [""], which is non-empty, so the development
bypass cannot fire and every present token is rejected with
"Invalid license token"; an empty parsed whitelist forces LICENSE_TOKENS
to be entirely unset. -/
theorem c9_empty_string_whitelist :
    (∀ nodeEnv gk yk : Option String, whitelistOf ⟨some "", nodeEnv, gk, yk⟩ = [""]) ∧
    (∀ (env : Env) (t : String), env.LICENSE_TOKENS = some "" → t ≠ "" →
      validateLicense env (some t) = ⟨false, some "Invalid license token"⟩) ∧
    (∀ env : Env, whitelistOf env = [] → env.LICENSE_TOKENS = none) := by
  refine ⟨fun _ _ _ => rfl, ?_, fun env => (whitelistOf_eq_nil_iff env).mp⟩
  intro env t hlt ht
  have hw : whitelistOf env = [""] := by simp [whitelistOf, hlt]; rfl
  simp [validateLicense, ht, hw]

/-- Witness for C9: even in development mode, LICENSE_TOKENS="" rejects
a present token. -/
theorem c9_empty_string_whitelist_witness :
    validateLicense ⟨some "", some "development", none, none⟩ (some "tok") =
      ⟨false, some "Invalid license token"⟩ :=
  c9_empty_string_whitelist.2.1 ⟨some "", some "development", none, none⟩ "tok"
    rfl (by decide)

/-- For a POST request, youtubeSearch is the catch-wrapped try block. -/
lemma youtubeSearch_post (env : Env) (ev : Event) (uy : FetchOutcome)
    (hm : ev.httpMethod = "POST") :
    youtubeSearch env ev uy =
      (match youtubeTry env ev uy with
        | .ok r => r
        | .error called =>
          (serverError "An error occurred processing your request", called)) := by
  unfold youtubeSearch
  rw [hm, if_neg (by decide), if_neg (by decide)]

/-- For a POST request, aiCommand is the catch-wrapped try block. -/
lemma aiCommand_post (env : Env) (ev : Event) (ua : String → GenOutcome)
    (hm : ev.httpMethod = "POST") :
    aiCommand env ev ua =
      (match aiTry env ev ua with
        | .ok r => r
        | .error called =>
          (serverError "An error occurred processing your request", called)) := by
  unfold aiCommand
  rw [hm, if_neg (by decide), if_neg (by decide)]

/-- With a valid license and a parsed body, the youtubeSearch try block
reduces to the field check and the upstream stage. -/
lemma youtubeTry_eval (env : Env) (ev : Event) (uy : FetchOutcome) (j : Json)
    (hl : (validateLicense env (extractToken (eventAuth ev))).valid = true)
    (hp : jsonParse (eventBodyRaw ev) = .ok j) :
    youtubeTry env ev uy =
      (match Json.access j "query" with
        | .error _ => .error false
        | .ok qv =>
          if requiredFieldBad qv then
            .ok (badRequest "Missing or invalid \"query\" field", false)
          else if !jsStrTruthy env.YOUTUBE_API_KEY then
            .ok (serverError "Server configuration error", false)
          else
            match uy with
            | .throws => .error true
            | .notOk _ _ => .ok (serverError "Failed to search YouTube", true)
            | .ok data =>
              .ok (okJson (.searchResults ((data.items.getD []).map mapItem)),
                true)) := by
  unfold youtubeTry
  dsimp only
  rw [if_neg (by simp [hl]), hp]

/-- With a valid license and a parsed body, the aiCommand try block
reduces to the field check, the key check, and the prompt and upstream
stages. -/
lemma aiTry_eval (env : Env) (ev : Event) (ua : String → GenOutcome) (j : Json)
    (hl : (validateLicense env (extractToken (eventAuth ev))).valid = true)
    (hp : jsonParse (eventBodyRaw ev) = .ok j) :
    aiTry env ev ua =
      (match Json.access j "prompt" with
        | .error _ => .error none
        | .ok pv =>
          if requiredFieldBad pv then
            .ok (badRequest "Missing or invalid \"prompt\" field", none)
          else if !jsStrTruthy env.GEMINI_API_KEY then
            .ok (serverError "Server configuration error", none)
          else
            match Json.access j "context" with
            | .error _ => .error none
            | .ok cv =>
              let promptStr := (pv.getD .null).strVal
              let fullPrompt :=
                match cv with
                | some c =>
                  if c.truthy then
                    "Context: " ++ c.stringify ++ "\n\nUser Request: " ++ promptStr
                  else promptStr
                | none => promptStr
              match ua fullPrompt with
              | .throws => .error (some fullPrompt)
              | .ok text => .ok (okJson (.aiResult text), some fullPrompt)) := by
  unfold aiTry
  dsimp only
  rw [if_neg (by simp [hl]), hp]

/-- C2: for a present token with a non-empty whitelist outside
development mode, validity is exactly whitelist membership, a
non-member fails with "Invalid license token", and a member makes both
handlers proceed past the 401 license gate. -/
theorem c2_whitelist_membership (env : Env) (t : String) (ht : t ≠ "")
    (hw : whitelistOf env ≠ []) (_hdev : env.NODE_ENV ≠ some "development") :
    ((validateLicense env (some t) = ⟨true, none⟩) ↔ t ∈ whitelistOf env) ∧
    (t ∉ whitelistOf env →
      validateLicense env (some t) = ⟨false, some "Invalid license token"⟩) ∧
    (t ∈ whitelistOf env →
      ∀ (ev : Event) (uy : FetchOutcome) (ua : String → GenOutcome),
        ev.httpMethod = "POST" → extractToken (eventAuth ev) = some t →
        (youtubeSearch env ev uy).fst.statusCode ≠ 401 ∧
        (aiCommand env ev ua).fst.statusCode ≠ 401) := by
  have hlen : ¬(whitelistOf env).length = 0 := by
    intro h0
    exact hw (List.length_eq_zero.mp h0)
  have hval : t ∈ whitelistOf env → validateLicense env (some t) = ⟨true, none⟩ := by
    intro hmem
    simp [validateLicense, ht, hlen, hmem]
  refine ⟨⟨?_, hval⟩, ?_, ?_⟩
  · intro heq
    by_contra hmem
    simp [validateLicense, ht, hlen, hmem] at heq
  · intro hmem
    simp [validateLicense, ht, hlen, hmem]
  · intro hmem ev uy ua hm hext
    have hv : (validateLicense env (extractToken (eventAuth ev))).valid = true := by
      rw [hext, hval hmem]
    exact ⟨(youtubeSearch_facts env ev uy).2 hv, (aiCommand_facts env ev ua).2 hv⟩

/-- Witness for C2 at a concrete whitelist, token and request. -/
theorem c2_whitelist_membership_witness :
    validateLicense ⟨some "tokA,tokB", none, none, none⟩ (some "tokB") = ⟨true, none⟩ ∧
    (youtubeSearch ⟨some "tokA,tokB", none, none, none⟩
        ⟨"POST", ⟨some "Bearer tokB", none⟩, none⟩ .throws).fst.statusCode ≠ 401 := by
  have h := c2_whitelist_membership ⟨some "tokA,tokB", none, none, none⟩ "tokB"
    (by decide) (by decide) (by decide)
  have hmem : "tokB" ∈ whitelistOf ⟨some "tokA,tokB", none, none, none⟩ := by decide
  exact ⟨h.1.mpr hmem,
    (h.2.2 hmem ⟨"POST", ⟨some "Bearer tokB", none⟩, none⟩ FetchOutcome.throws
      (fun _ => GenOutcome.throws) rfl rfl).1⟩

/-- C6: any method other than POST and OPTIONS gets a 405 from both
handlers, whatever the environment, headers, body and upstream are,
because the method gate precedes the license guard and the body
validator. -/
theorem c6_method_gate (env : Env) (ev : Event) (uy : FetchOutcome)
    (ua : String → GenOutcome) (hp : ev.httpMethod ≠ "POST")
    (ho : ev.httpMethod ≠ "OPTIONS") :
    (youtubeSearch env ev uy).fst.statusCode = 405 ∧
    (aiCommand env ev ua).fst.statusCode = 405 := by
  unfold youtubeSearch aiCommand
  simp [ho, hp, methodNotAllowed]

/-- Witness for C6: a GET request with no credentials at all is a 405. -/
theorem c6_method_gate_witness :
    (youtubeSearch ⟨none, none, none, none⟩ ⟨"GET", ⟨none, none⟩, none⟩
        FetchOutcome.throws).fst.statusCode = 405 ∧
    (aiCommand ⟨none, none, none, none⟩ ⟨"GET", ⟨none, none⟩, none⟩
        (fun _ => GenOutcome.throws)).fst.statusCode = 405 :=
  c6_method_gate ⟨none, none, none, none⟩ ⟨"GET", ⟨none, none⟩, none⟩
    FetchOutcome.throws (fun _ => GenOutcome.throws) (by decide) (by decide)

/-- C8: every response of either handler carries the three CORS headers
allow-origin *, allow-headers Content-Type, Authorization and
allow-methods POST, OPTIONS. -/
theorem c8_cors_on_every_response (env : Env) (ev : Event) (uy : FetchOutcome)
    (ua : String → GenOutcome) :
    (("Access-Control-Allow-Origin", "*") ∈ (youtubeSearch env ev uy).fst.headers ∧
     ("Access-Control-Allow-Headers", "Content-Type, Authorization") ∈
        (youtubeSearch env ev uy).fst.headers ∧
     ("Access-Control-Allow-Methods", "POST, OPTIONS") ∈
        (youtubeSearch env ev uy).fst.headers) ∧
    (("Access-Control-Allow-Origin", "*") ∈ (aiCommand env ev ua).fst.headers ∧
     ("Access-Control-Allow-Headers", "Content-Type, Authorization") ∈
        (aiCommand env ev ua).fst.headers ∧
     ("Access-Control-Allow-Methods", "POST, OPTIONS") ∈
        (aiCommand env ev ua).fst.headers) := by
  rcases (youtubeSearch_facts env ev uy).1 with h | h <;>
    rcases (aiCommand_facts env ev ua).1 with h2 | h2 <;>
      simp [h, h2, corsHeaders]

/-- C7: for a licensed POST whose parsed body fails the required-field
check (absent, non-string, or empty after trimming), each handler
answers 400 with its missing-field message and the upstream call flag
stays unset, whatever the upstream would have returned. -/
theorem c7_missing_required_field (env : Env) (ev : Event) (uy : FetchOutcome)
    (ua : String → GenOutcome) (j : Json)
    (hm : ev.httpMethod = "POST")
    (hl : (validateLicense env (extractToken (eventAuth ev))).valid = true)
    (hp : jsonParse (eventBodyRaw ev) = .ok j) :
    (∀ qv, Json.access j "query" = .ok qv → requiredFieldBad qv = true →
      youtubeSearch env ev uy =
        (badRequest "Missing or invalid \"query\" field", false)) ∧
    (∀ pv, Json.access j "prompt" = .ok pv → requiredFieldBad pv = true →
      aiCommand env ev ua =
        (badRequest "Missing or invalid \"prompt\" field", none)) := by
  constructor
  · intro qv hq hbad
    rw [youtubeSearch_post env ev uy hm, youtubeTry_eval env ev uy j hl hp, hq]
    dsimp only
    rw [if_pos hbad]
  · intro pv hq hbad
    rw [aiCommand_post env ev ua hm, aiTry_eval env ev ua j hl hp, hq]
    dsimp only
    rw [if_pos hbad]

/-- Witness for C7: an absent body parses as the empty object, whose
required field is undefined, so both handlers answer 400 without any
upstream call. -/
theorem c7_missing_required_field_witness :
    youtubeSearch ⟨some "tok", none, some "k", some "k"⟩
        ⟨"POST", ⟨some "Bearer tok", none⟩, none⟩ FetchOutcome.throws =
      (badRequest "Missing or invalid \"query\" field", false) ∧
    aiCommand ⟨some "tok", none, some "k", some "k"⟩
        ⟨"POST", ⟨some "Bearer tok", none⟩, none⟩ (fun _ => GenOutcome.throws) =
      (badRequest "Missing or invalid \"prompt\" field", none) := by
  have h := c7_missing_required_field ⟨some "tok", none, some "k", some "k"⟩
    ⟨"POST", ⟨some "Bearer tok", none⟩, none⟩ FetchOutcome.throws
    (fun _ => GenOutcome.throws) (.obj []) rfl rfl rfl
  exact ⟨h.1 none rfl rfl, h.2 none rfl rfl⟩

/-- C10: for a licensed POST, the body string "null" parses to JSON
null, whose required-field access throws and is converted by the
handler-boundary catch into the generic 500; an absent body is treated
as the empty object and yields the 400 missing-field message, not the
invalid-JSON 400. -/
theorem c10_null_and_absent_body (env : Env) (ev : Event) (uy : FetchOutcome)
    (ua : String → GenOutcome)
    (hm : ev.httpMethod = "POST")
    (hl : (validateLicense env (extractToken (eventAuth ev))).valid = true) :
    (ev.body = some "null" →
      youtubeSearch env ev uy =
        (serverError "An error occurred processing your request", false) ∧
      aiCommand env ev ua =
        (serverError "An error occurred processing your request", none)) ∧
    (ev.body = none →
      youtubeSearch env ev uy =
        (badRequest "Missing or invalid \"query\" field", false) ∧
      aiCommand env ev ua =
        (badRequest "Missing or invalid \"prompt\" field", none)) := by
  constructor
  · intro hb
    have hraw : eventBodyRaw ev = "null" := by unfold eventBodyRaw; rw [hb]; rfl
    have hp : jsonParse (eventBodyRaw ev) = .ok .null := by rw [hraw]; rfl
    constructor
    · rw [youtubeSearch_post env ev uy hm, youtubeTry_eval env ev uy .null hl hp]
      rfl
    · rw [aiCommand_post env ev ua hm, aiTry_eval env ev ua .null hl hp]
      rfl
  · intro hb
    have hraw : eventBodyRaw ev = emptyObjectText := by unfold eventBodyRaw; rw [hb]; rfl
    have hp : jsonParse (eventBodyRaw ev) = .ok (.obj []) := by rw [hraw]; rfl
    constructor
    · rw [youtubeSearch_post env ev uy hm, youtubeTry_eval env ev uy (.obj []) hl hp]
      rfl
    · rw [aiCommand_post env ev ua hm, aiTry_eval env ev ua (.obj []) hl hp]
      rfl

/-- Witness for C10 on concrete licensed requests with body "null" and
with no body. -/
theorem c10_null_and_absent_body_witness :
    youtubeSearch ⟨some "tok", none, some "k", some "k"⟩
        ⟨"POST", ⟨some "Bearer tok", none⟩, some "null"⟩ FetchOutcome.throws =
      (serverError "An error occurred processing your request", false) ∧
    aiCommand ⟨some "tok", none, some "k", some "k"⟩
        ⟨"POST", ⟨some "Bearer tok", none⟩, some "null"⟩ (fun _ => GenOutcome.throws) =
      (serverError "An error occurred processing your request", none) ∧
    youtubeSearch ⟨some "tok", none, some "k", some "k"⟩
        ⟨"POST", ⟨some "Bearer tok", none⟩, none⟩ FetchOutcome.throws =
      (badRequest "Missing or invalid \"query\" field", false) := by
  have h1 := c10_null_and_absent_body ⟨some "tok", none, some "k", some "k"⟩
    ⟨"POST", ⟨some "Bearer tok", none⟩, some "null"⟩ FetchOutcome.throws
    (fun _ => GenOutcome.throws) rfl rfl
  have h2 := c10_null_and_absent_body ⟨some "tok", none, some "k", some "k"⟩
    ⟨"POST", ⟨some "Bearer tok", none⟩, none⟩ FetchOutcome.throws
    (fun _ => GenOutcome.throws) rfl rfl
  exact ⟨(h1.1 rfl).1, (h1.1 rfl).2, (h2.2 rfl).1⟩

/-- The per-item mapping as the claim words it: url is the watch base
followed by the videoId (empty when absent), title and channel come from
the snippet with "" when absent, and each thumbnail resolution is mapped
1:1 from the corresponding snippet thumbnail url, none when that
resolution is absent. -/
def claimShapeItem (item : YTItem) : YTResult :=
  ⟨(match item.snippet with
    | some s => s.title.getD ""
    | none => ""),
   watchBase ++
     (match item.id with
      | some i2 =>
        match i2.videoId with
        | some v => v
        | none => ""
      | none => ""),
   (match item.snippet with
    | some s => s.channelTitle.getD ""
    | none => ""),
   ⟨(match item.snippet with
     | some s =>
       match s.thumbnails with
       | some th =>
         match th.default with
         | some d => d.url
         | none => none
       | none => none
     | none => none),
    (match item.snippet with
     | some s =>
       match s.thumbnails with
       | some th =>
         match th.medium with
         | some d => d.url
         | none => none
       | none => none
     | none => none),
    (match item.snippet with
     | some s =>
       match s.thumbnails with
       | some th =>
         match th.high with
         | some d => d.url
         | none => none
       | none => none
     | none => none)⟩⟩

/-- C4: on a licensed POST with a valid query and a configured key, the
handler returns exactly one result per upstream item, in order, and the
source transformation mapItem coincides with the mapping the claim
describes (claimShapeItem). -/
theorem c4_search_result_mapping (env : Env) (ev : Event) (j : Json)
    (qv : Option Json) (data : YouTubeApiResponse)
    (hm : ev.httpMethod = "POST")
    (hl : (validateLicense env (extractToken (eventAuth ev))).valid = true)
    (hp : jsonParse (eventBodyRaw ev) = .ok j)
    (hq : Json.access j "query" = .ok qv)
    (hgood : requiredFieldBad qv = false)
    (hk : jsStrTruthy env.YOUTUBE_API_KEY = true) :
    youtubeSearch env ev (.ok data) =
      (okJson (.searchResults ((data.items.getD []).map mapItem)), true) ∧
    ((data.items.getD []).map mapItem).length = (data.items.getD []).length ∧
    (∀ item, mapItem item = claimShapeItem item) := by
  refine ⟨?_, List.length_map _ _, ?_⟩
  · rw [youtubeSearch_post env ev (.ok data) hm,
      youtubeTry_eval env ev (.ok data) j hl hp, hq]
    dsimp only
    rw [if_neg (by simp [hgood]), if_neg (by simp [hk])]
  · intro item
    obtain ⟨oid, osnip⟩ := item
    rcases oid with _ | ⟨_ | v⟩ <;>
      rcases osnip with _ | ⟨oti, och, _ | ⟨_ | d, _ | m, _ | h2⟩⟩ <;> rfl

/-- Witness for C4: a mocked upstream payload with two items yields
exactly two results with the urls, titles, channels and thumbnails
mapped as described. -/
theorem c4_search_result_mapping_witness :
    youtubeSearch ⟨some "tok", none, some "k", some "k"⟩
        ⟨"POST", ⟨some "Bearer tok", none⟩, some "\x7b\"query\": \"cats\"\x7d"⟩
        (.ok ⟨some
          [⟨some ⟨some "vid1"⟩,
            some ⟨some "Title1", some "Chan1",
              some ⟨some ⟨some "d1"⟩, some ⟨some "m1"⟩, none⟩⟩⟩,
           ⟨some ⟨some "vid2"⟩, some ⟨some "Title2", some "Chan2", none⟩⟩]⟩) =
      (okJson (.searchResults
        [⟨"Title1", "https://www.youtube.com/watch?v=vid1", "Chan1",
          ⟨some "d1", some "m1", none⟩⟩,
         ⟨"Title2", "https://www.youtube.com/watch?v=vid2", "Chan2",
          ⟨none, none, none⟩⟩]), true) := by
  have h := c4_search_result_mapping ⟨some "tok", none, some "k", some "k"⟩
    ⟨"POST", ⟨some "Bearer tok", none⟩, some "\x7b\"query\": \"cats\"\x7d"⟩
    (.obj [("query", .str "cats")]) (some (.str "cats"))
    ⟨some
      [⟨some ⟨some "vid1"⟩,
        some ⟨some "Title1", some "Chan1",
          some ⟨some ⟨some "d1"⟩, some ⟨some "m1"⟩, none⟩⟩⟩,
       ⟨some ⟨some "vid2"⟩, some ⟨some "Title2", some "Chan2", none⟩⟩]⟩
    rfl rfl rfl rfl rfl rfl
  exact h.1

/-- C5: on a licensed POST with a valid prompt and a configured key, the
prompt string sent to the generative API is exactly the user prompt when
no context is provided, and is
"Context: " ++ JSON-serialized context ++ "\n\nUser Request: " ++ prompt
when a context object is provided; the success response is 200 with body
result = upstream text. -/
theorem c5_prompt_construction (env : Env) (ev : Event)
    (ua : String → GenOutcome) (j : Json) (p txt : String)
    (hm : ev.httpMethod = "POST")
    (hl : (validateLicense env (extractToken (eventAuth ev))).valid = true)
    (hp : jsonParse (eventBodyRaw ev) = .ok j)
    (hpv : Json.access j "prompt" = .ok (some (.str p)))
    (hgood : requiredFieldBad (some (.str p)) = false)
    (hk : jsStrTruthy env.GEMINI_API_KEY = true) :
    (Json.access j "context" = .ok none → ua p = .ok txt →
      aiCommand env ev ua = (okJson (.aiResult txt), some p)) ∧
    (∀ fs : List (String × Json),
      Json.access j "context" = .ok (some (.obj fs)) →
      ua ("Context: " ++ (Json.obj fs).stringify ++ "\n\nUser Request: " ++ p) =
        .ok txt →
      aiCommand env ev ua =
        (okJson (.aiResult txt),
         some ("Context: " ++ (Json.obj fs).stringify ++
           "\n\nUser Request: " ++ p))) := by
  constructor
  · intro hc hup
    rw [aiCommand_post env ev ua hm, aiTry_eval env ev ua j hl hp, hpv]
    dsimp only
    rw [if_neg (by simp [hgood]), if_neg (by simp [hk]), hc]
    simp only [Option.getD_some, Json.strVal]
    rw [hup]
  · intro fs hc hup
    rw [aiCommand_post env ev ua hm, aiTry_eval env ev ua j hl hp, hpv]
    dsimp only
    rw [if_neg (by simp [hgood]), if_neg (by simp [hk]), hc]
    simp only [Option.getD_some, Json.strVal, Json.truthy, reduceIte]
    rw [hup]

/-- Witness for C5 on a concrete body with a context object. -/
theorem c5_prompt_construction_witness :
    aiCommand ⟨some "tok", none, some "k", some "k"⟩
        ⟨"POST", ⟨some "Bearer tok", none⟩,
          some "\x7b\"prompt\": \"Do it\", \"context\": \x7b\"a\": \"b\"\x7d\x7d"⟩
        (fun _ => GenOutcome.ok "done") =
      (okJson (.aiResult "done"),
       some ("Context: " ++ (Json.obj [("a", Json.str "b")]).stringify ++
         "\n\nUser Request: " ++ "Do it")) := by
  have h := c5_prompt_construction ⟨some "tok", none, some "k", some "k"⟩
    ⟨"POST", ⟨some "Bearer tok", none⟩,
      some "\x7b\"prompt\": \"Do it\", \"context\": \x7b\"a\": \"b\"\x7d\x7d"⟩
    (fun _ => GenOutcome.ok "done")
    (.obj [("prompt", .str "Do it"), ("context", .obj [("a", .str "b")])])
    "Do it" "done" rfl rfl rfl rfl rfl rfl
  exact h.2 [("a", Json.str "b")] rfl rfl
